import Mathlib

/-!
Shallow embedding of `python/cugraph/centrality/betweenness_centrality.py`
(cugraph wrapper around the native betweenness-centrality backends).

The module under verification is a validation-and-dispatch shim: it checks
the caller arguments, optionally samples or translates the source-vertex set,
and forwards everything to an external compiled backend.  The embedding keeps
the wrapper logic exactly, and represents the hand-off to the backend by
returning the argument tuple that would be passed to it (the backend itself is
outside this repository).

Python error classes are mapped to the error taxonomy of the spec:
`ValueError` -> `Err.invalidArgument`, `NotImplementedError` -> `Err.notSupported`,
`TypeError` -> `Err.typeMismatch`, and the `IndexError` raised by the failed
renumber-map lookup -> `Err.notFound`.

Each wrapper call additionally yields a trace of the validation / work steps it
performed, in program order, so that fail-fast ordering claims can be stated.
-/

/-- Error taxonomy of the wrapper (image of the Python exception classes). -/
inductive Err
| invalidArgument
| notSupported
| typeMismatch
| notFound
deriving DecidableEq, Repr

/-- Observable steps of a wrapper call, in the order the code performs them. -/
inductive Ev
| implResolve      -- implementation-name resolution and unknown-name check
| gunrockCheck     -- gunrock + sampling combination check
| samplingWork     -- random sampling of source indices (k is an int)
| translationWork  -- identifier-list translation (k is a list)
| endpointsCheck   -- endpoints-inclusion check
| weightCheck      -- weight-parameter check
| dtypeCheck       -- result_dtype check
| backendInvoke    -- call into the native backend wrapper
deriving DecidableEq, Repr

/-- The dynamically-typed `k` parameter: `None`, a Python int, a Python list of
vertex identifiers, or any other Python value (a string, a float, ...). -/
inductive KParam
| none
| int (i : Int)
| list (l : List Int)
| other (s : String)
deriving DecidableEq, Repr

/-- The `implementation` parameter: `None` or a Python string. -/
inductive Impl
| none
| str (s : String)
deriving DecidableEq, Repr

/-- The `result_dtype` parameter: `np.float32`, `np.float64`, or any other
Python value. -/
inductive Dtype
| float32
| float64
| other (s : String)
deriving DecidableEq, Repr

/-- The part of a cuGraph graph object the wrapper reads: its vertex count,
its `renumbered` flag, and its `edgelist.renumber_map` series (position
`i` of the list holds the external identifier of internal index `i`). -/
structure Graph where
  number_of_vertices : Nat
  renumbered : Bool
  renumber_map : List Int
deriving DecidableEq, Repr

/-- Argument tuple handed to `betweenness_centrality_wrapper.betweenness_centrality`. -/
structure BCCall where
  G : Graph
  normalized : Bool
  endpoints : Bool
  weight : Option Int
  k : KParam
  vertices : Option (List Int)
  implementation : String
  result_dtype : Dtype
deriving DecidableEq, Repr

/-- Argument tuple handed to `edge_betweenness_centrality_wrapper.edge_betweenness_centrality`. -/
structure EBCCall where
  G : Graph
  normalized : Bool
  weight : Option Int
  k : KParam
  vertices : Option (List Int)
  result_dtype : Dtype
deriving DecidableEq, Repr

/-- Modelled from the spec: deterministic pseudo-random step standing in for
the Python stdlib Mersenne-Twister state (the stdlib is outside this
repository; only "deterministic given seed" matters to the wrapper). -/
def lcg (s : Nat) : Nat :=
  (6364136223846793005 * s + 1442695040888963407) % 18446744073709551616

/-- Modelled from the spec: `random.seed(seed)`.  An explicit seed yields a
reproducible generator state; `None` seeds from system time, which the
embedding fixes at an arbitrary constant (no claim depends on its value). -/
def seedState : Option Nat → Nat
| some s => lcg s
| Option.none => 0

/-- Modelled from the spec: selection sampling as performed by
`random.sample` — repeatedly remove a pseudo-randomly chosen element of the
remaining pool.  `pick j pool s` draws `j` elements. -/
def pick : Nat → List Nat → Nat → List Nat
| 0, _, _ => []
| _ + 1, [], _ => []
| j + 1, x :: xs, s =>
  (x :: xs).getD (s % (x :: xs).length) 0 ::
    pick j ((x :: xs).eraseIdx (s % (x :: xs).length)) (lcg s)

/-- Modelled from the spec: `random.seed(seed); random.sample(range(n), k)`.
`random.sample` raises `ValueError` unless `0 <= k <= n`, and otherwise
returns `k` distinct elements of `range(n)`, deterministically given the
generator state. -/
def random_sample (seed : Option Nat) (n : Nat) (k : Int) : Except Err (List Int) :=
  if 0 ≤ k ∧ k ≤ (n : Int) then
    Except.ok ((pick k.toNat (List.range n) (seedState seed)).map (Nat.cast : Nat → Int))
  else Except.error Err.invalidArgument

/-- Embeds `G.edgelist.renumber_map[G.edgelist.renumber_map == vert].index[0]`:
the first position of the series holding `vert`; `Option.none` when `vert`
is absent (the `.index[0]` on an empty selection raises `IndexError`). -/
def renumber_lookup : List Int → Int → Option Nat
| [], _ => Option.none
| x :: xs, vert => if x = vert then some 0 else (renumber_lookup xs vert).map (· + 1)

/-- The list comprehension of `_initialize_vertices_from_identifiers_list`:
translate each identifier in order through the renumber map, failing at the
first identifier with no match. -/
def translate_all (m : List Int) : List Int → Except Err (List Int)
| [] => Except.ok []
| v :: vs =>
  match renumber_lookup m v with
  | Option.none => Except.error Err.notFound
  | some i =>
    match translate_all m vs with
    | Except.error e => Except.error e
    | Except.ok rest => Except.ok (Int.ofNat i :: rest)

/-- Embeds `_initialize_and_verify_implementation(implementation, k)`: resolve `None`
to `"default"`, reject names outside {"default", "gunrock"}, then reject the
gunrock + non-None-k combination.  The trace records which of the two checks
ran. -/
def _initialize_and_verify_implementation (implementation : Impl) (k : KParam) :
    List Ev × Except Err String :=
  let impl := match implementation with
    | Impl.none => "default"
    | Impl.str s => s
  if impl ∈ (["default", "gunrock"] : List String) then
    if impl = "gunrock" ∧ k ≠ KParam.none then
      ([Ev.implResolve, Ev.gunrockCheck], Except.error Err.invalidArgument)
    else
      ([Ev.implResolve, Ev.gunrockCheck], Except.ok impl)
  else
    ([Ev.implResolve], Except.error Err.invalidArgument)

/-- Embeds `_initialize_vertices_from_indices_sampling(G, k, seed)`:
`random.seed(seed); random.sample(range(G.number_of_vertices()), k)`. -/
def _initialize_vertices_from_indices_sampling (G : Graph) (k : Int) (seed : Option Nat) :
    Except Err (List Int) :=
  random_sample seed G.number_of_vertices k

/-- Embeds `_initialize_vertices_from_identifiers_list(G, identifiers)`: translate
only when `G.renumbered`, then set `k = len(vertices)`. -/
def _initialize_vertices_from_identifiers_list (G : Graph) (identifiers : List Int) :
    Except Err (List Int × Int) :=
  if G.renumbered then
    match translate_all G.renumber_map identifiers with
    | Except.error e => Except.error e
    | Except.ok vs => Except.ok (vs, Int.ofNat vs.length)
  else
    Except.ok (identifiers, Int.ofNat identifiers.length)

/-- Embeds `_initialize_vertices(G, k, seed)`: dispatch on the runtime type of `k`.
An int triggers sampling, a list triggers translation (and `k` becomes the
length of the list), and any other value — `None` included — leaves
`vertices = None` and `k` untouched, with no error. -/
def _initialize_vertices (G : Graph) (k : KParam) (seed : Option Nat) :
    List Ev × Except Err (Option (List Int) × KParam) :=
  match k with
  | KParam.int i =>
    ([Ev.samplingWork],
      match _initialize_vertices_from_indices_sampling G i seed with
      | Except.error e => Except.error e
      | Except.ok vs => Except.ok (some vs, KParam.int i))
  | KParam.list l =>
    ([Ev.translationWork],
      match _initialize_vertices_from_identifiers_list G l with
      | Except.error e => Except.error e
      | Except.ok (vs, len) => Except.ok (some vs, KParam.int len))
  | k0 => ([], Except.ok (Option.none, k0))

/-- Embeds `betweenness_centrality(G, k, normalized, weight, endpoints,
implementation, seed, result_dtype)`.  Returns the performed steps in program
order and either the first error raised or the argument tuple passed to the
backend. -/
def betweenness_centrality (G : Graph) (k : KParam) (normalized : Bool)
    (weight : Option Int) (endpoints : Bool) (implementation : Impl)
    (seed : Option Nat) (result_dtype : Dtype) :
    List Ev × Except Err BCCall :=
  let r1 := _initialize_and_verify_implementation implementation k
  match r1.2 with
  | Except.error e => (r1.1, Except.error e)
  | Except.ok impl =>
    let r2 := _initialize_vertices G k seed
    match r2.2 with
    | Except.error e => (r1.1 ++ r2.1, Except.error e)
    | Except.ok (vertices, k2) =>
      if endpoints = true then
        (r1.1 ++ r2.1 ++ [Ev.endpointsCheck], Except.error Err.notSupported)
      else if weight ≠ Option.none then
        (r1.1 ++ r2.1 ++ [Ev.endpointsCheck, Ev.weightCheck], Except.error Err.notSupported)
      else if result_dtype ∉ ([Dtype.float32, Dtype.float64] : List Dtype) then
        (r1.1 ++ r2.1 ++ [Ev.endpointsCheck, Ev.weightCheck, Ev.dtypeCheck],
          Except.error Err.typeMismatch)
      else
        (r1.1 ++ r2.1 ++ [Ev.endpointsCheck, Ev.weightCheck, Ev.dtypeCheck, Ev.backendInvoke],
          Except.ok ⟨G, normalized, endpoints, weight, k2, vertices, impl, result_dtype⟩)

/-- Embeds `edge_betweenness_centrality(G, k, normalized, weight, seed,
result_dtype)`. -/
def edge_betweenness_centrality (G : Graph) (k : KParam) (normalized : Bool)
    (weight : Option Int) (seed : Option Nat) (result_dtype : Dtype) :
    List Ev × Except Err EBCCall :=
  let r := _initialize_vertices G k seed
  match r.2 with
  | Except.error e => (r.1, Except.error e)
  | Except.ok (vertices, k2) =>
    if weight ≠ Option.none then
      (r.1 ++ [Ev.weightCheck], Except.error Err.notSupported)
    else if result_dtype ∉ ([Dtype.float32, Dtype.float64] : List Dtype) then
      (r.1 ++ [Ev.weightCheck, Ev.dtypeCheck], Except.error Err.typeMismatch)
    else
      (r.1 ++ [Ev.weightCheck, Ev.dtypeCheck, Ev.backendInvoke],
        Except.ok ⟨G, normalized, weight, k2, vertices, result_dtype⟩)

/-- The work step `_initialize_vertices` performs for a given shape of `k`. -/
def workEvs : KParam → List Ev
| KParam.int _ => [Ev.samplingWork]
| KParam.list _ => [Ev.translationWork]
| _ => []

/-- A 2-vertex non-renumbered graph, used for concrete evaluations. -/
def G2 : Graph := { number_of_vertices := 2, renumbered := false, renumber_map := [] }

/-- A 4-vertex renumbered graph whose external identifiers are sparse. -/
def GR : Graph := { number_of_vertices := 4, renumbered := true, renumber_map := [10, 20, 40, 30] }

/-- Selection sampling draws exactly `j` elements when the pool is large enough. -/
theorem pick_length (j : Nat) : ∀ (pool : List Nat) (s : Nat), j ≤ pool.length →
    (pick j pool s).length = j := by
  induction j with
  | zero => intro pool s _; rfl
  | succ n ih =>
    intro pool s h
    match pool with
    | [] => simp at h
    | x :: xs =>
      have hpos : 0 < (x :: xs).length := by simp
      have hi : s % (x :: xs).length < (x :: xs).length := Nat.mod_lt _ hpos
      have hlen : ((x :: xs).eraseIdx (s % (x :: xs).length)).length = (x :: xs).length - 1 := by
        rw [List.length_eraseIdx, if_pos hi]
      have hrec : (pick n ((x :: xs).eraseIdx (s % (x :: xs).length)) (lcg s)).length = n :=
        ih _ _ (by rw [hlen]; simp only [List.length_cons] at h ⊢; omega)
      simp only [pick]
      rw [List.length_cons, hrec]

/-- Every element drawn by selection sampling comes from the pool. -/
theorem pick_mem (j : Nat) : ∀ (pool : List Nat) (s : Nat) (y : Nat),
    y ∈ pick j pool s → y ∈ pool := by
  induction j with
  | zero => intro pool s y h; simp [pick] at h
  | succ n ih =>
    intro pool s y h
    match pool with
    | [] => simp [pick] at h
    | x :: xs =>
      have hpos : 0 < (x :: xs).length := by simp
      have hi : s % (x :: xs).length < (x :: xs).length := Nat.mod_lt _ hpos
      simp only [pick, List.mem_cons] at h
      rcases h with h | h
      · rw [h, List.getD_eq_getElem _ _ hi]
        exact List.getElem_mem hi
      · exact List.Sublist.mem (ih _ _ _ h) (List.eraseIdx_sublist _ _)

/-- Selection sampling from a duplicate-free pool is duplicate-free. -/
theorem pick_nodup (j : Nat) : ∀ (pool : List Nat) (s : Nat), pool.Nodup →
    (pick j pool s).Nodup := by
  induction j with
  | zero => intro pool s _; simp [pick]
  | succ n ih =>
    intro pool s hnd
    match pool with
    | [] => simp [pick]
    | x :: xs =>
      have hpos : 0 < (x :: xs).length := by simp
      have hi : s % (x :: xs).length < (x :: xs).length := Nat.mod_lt _ hpos
      simp only [pick, List.nodup_cons]
      refine ⟨fun hmem => ?_, ih _ _ (hnd.eraseIdx _)⟩
      have h1 : (x :: xs).getD (s % (x :: xs).length) 0 ∈
          (x :: xs).eraseIdx (s % (x :: xs).length) := pick_mem n _ _ _ hmem
      rw [List.getD_eq_getElem _ _ hi] at h1
      rcases List.mem_eraseIdx_iff_getElem.mp h1 with ⟨i2, h2, hne, heq⟩
      exact hne (hnd.getElem_inj_iff.mp heq)

/-- Lookup `renumber_lookup` fails exactly on identifiers absent from the map. -/
theorem renumber_lookup_eq_none {m : List Int} {v : Int} :
    renumber_lookup m v = Option.none ↔ v ∉ m := by
  induction m with
  | nil => simp [renumber_lookup]
  | cons x xs ih =>
    simp only [renumber_lookup, List.mem_cons]
    by_cases hx : x = v
    · simp [hx]
    · simp only [if_neg hx]
      rw [Option.map_eq_none']
      rw [ih]
      simp [Ne.symm hx]

/-- A successful `renumber_lookup` returns an in-range index holding the
looked-up identifier. -/
theorem renumber_lookup_some {m : List Int} {v : Int} : ∀ {i : Nat},
    renumber_lookup m v = some i → ∃ hi : i < m.length, m.get ⟨i, hi⟩ = v := by
  induction m with
  | nil => intro i h; simp [renumber_lookup] at h
  | cons x xs ih =>
    intro i h
    simp only [renumber_lookup] at h
    by_cases hx : x = v
    · rw [if_pos hx] at h
      cases h
      exact ⟨by simp, hx⟩
    · rw [if_neg hx] at h
      match he : renumber_lookup xs v with
      | Option.none => rw [he] at h; simp at h
      | some j =>
        rw [he] at h
        simp only [Option.map_some'] at h
        cases h
        rcases ih he with ⟨hj, hget⟩
        exact ⟨by simpa using Nat.succ_lt_succ hj, by simpa using hget⟩

/-- When every identifier occurs in the map, translation succeeds and is the
element-wise first-match lookup, in input order. -/
theorem translate_all_ok {m : List Int} : ∀ {ids : List Int}, (∀ v ∈ ids, v ∈ m) →
    translate_all m ids
      = Except.ok (ids.map (fun v => Int.ofNat ((renumber_lookup m v).getD 0))) := by
  intro ids
  induction ids with
  | nil => intro _; rfl
  | cons v vs ih =>
    intro h
    have hv : v ∈ m := h v (by simp)
    match he : renumber_lookup m v with
    | Option.none => exact absurd (renumber_lookup_eq_none.mp he) (by simpa using hv)
    | some i =>
      simp only [translate_all, he, ih (fun x hx => h x (List.mem_cons_of_mem _ hx)),
        List.map_cons, Option.getD_some]

/-- Translation fails with `notFound` as soon as one identifier is absent. -/
theorem translate_all_missing {m : List Int} {v : Int} : ∀ {ids : List Int},
    v ∈ ids → v ∉ m → translate_all m ids = Except.error Err.notFound := by
  intro ids
  induction ids with
  | nil => intro hvm _; simp at hvm
  | cons w ws ih =>
    intro hvm hmiss
    rcases List.mem_cons.mp hvm with rfl | hv
    · simp only [translate_all, renumber_lookup_eq_none.mpr hmiss]
    · match hw : renumber_lookup m w with
      | Option.none => simp only [translate_all, hw]
      | some i => simp only [translate_all, hw, ih hv hmiss]

/-- Resolving `"gunrock"` with any non-None `k` fails at the gunrock check. -/
theorem impl_gunrock_k {k : KParam} (h : k ≠ KParam.none) :
    _initialize_and_verify_implementation (Impl.str "gunrock") k
      = ([Ev.implResolve, Ev.gunrockCheck], Except.error Err.invalidArgument) := by
  simp [_initialize_and_verify_implementation, h]

/-- The implementation check either rejects an unknown name having performed
only the name resolution, or it performs both of its checks. -/
theorem impl_check_cases (implementation : Impl) (k : KParam) :
    _initialize_and_verify_implementation implementation k
        = ([Ev.implResolve], Except.error Err.invalidArgument)
    ∨ ∃ r, _initialize_and_verify_implementation implementation k
        = ([Ev.implResolve, Ev.gunrockCheck], r) := by
  simp only [_initialize_and_verify_implementation]
  split
  · split
    · exact Or.inr ⟨_, rfl⟩
    · exact Or.inr ⟨_, rfl⟩
  · exact Or.inl rfl

/-- Step trace: `_initialize_vertices` performs exactly the work step dictated by the
shape of `k`. -/
theorem init_vertices_trace (G : Graph) (k : KParam) (seed : Option Nat) :
    (_initialize_vertices G k seed).1 = workEvs k := by
  cases k <;> rfl

/-- A failing implementation check aborts `betweenness_centrality` with its
trace and error. -/
theorem bc_of_impl_err {G : Graph} {k : KParam} {normalized : Bool}
    {weight : Option Int} {endpoints : Bool} {implementation : Impl}
    {seed : Option Nat} {result_dtype : Dtype} {t1 : List Ev} {e : Err}
    (h : _initialize_and_verify_implementation implementation k = (t1, Except.error e)) :
    betweenness_centrality G k normalized weight endpoints implementation seed result_dtype
      = (t1, Except.error e) := by
  simp only [betweenness_centrality]
  rw [h]

/-- A failing source-set initialization aborts `betweenness_centrality` after
the implementation check. -/
theorem bc_of_vert_err {G : Graph} {k : KParam} {normalized : Bool}
    {weight : Option Int} {endpoints : Bool} {implementation : Impl}
    {seed : Option Nat} {result_dtype : Dtype} {t1 t2 : List Ev} {impl : String} {e : Err}
    (h1 : _initialize_and_verify_implementation implementation k = (t1, Except.ok impl))
    (h2 : _initialize_vertices G k seed = (t2, Except.error e)) :
    betweenness_centrality G k normalized weight endpoints implementation seed result_dtype
      = (t1 ++ t2, Except.error e) := by
  simp only [betweenness_centrality]
  rw [h1, h2]

/-- With implementation and source set in hand, `endpoints=True` is rejected. -/
theorem bc_of_endpoints {G : Graph} {k : KParam} {normalized : Bool}
    {weight : Option Int} {endpoints : Bool} {implementation : Impl}
    {seed : Option Nat} {result_dtype : Dtype} {t1 t2 : List Ev} {impl : String}
    {vs : Option (List Int)} {k2 : KParam}
    (h1 : _initialize_and_verify_implementation implementation k = (t1, Except.ok impl))
    (h2 : _initialize_vertices G k seed = (t2, Except.ok (vs, k2)))
    (he : endpoints = true) :
    betweenness_centrality G k normalized weight endpoints implementation seed result_dtype
      = (t1 ++ t2 ++ [Ev.endpointsCheck], Except.error Err.notSupported) := by
  simp only [betweenness_centrality]
  rw [h1, h2, he]
  rfl

/-- With implementation and source set in hand and endpoints off, a non-None
weight is rejected. -/
theorem bc_of_weight {G : Graph} {k : KParam} {normalized : Bool}
    {w : Int} {endpoints : Bool} {implementation : Impl}
    {seed : Option Nat} {result_dtype : Dtype} {t1 t2 : List Ev} {impl : String}
    {vs : Option (List Int)} {k2 : KParam}
    (h1 : _initialize_and_verify_implementation implementation k = (t1, Except.ok impl))
    (h2 : _initialize_vertices G k seed = (t2, Except.ok (vs, k2)))
    (he : endpoints = false) :
    betweenness_centrality G k normalized (some w) endpoints implementation seed result_dtype
      = (t1 ++ t2 ++ [Ev.endpointsCheck, Ev.weightCheck], Except.error Err.notSupported) := by
  simp only [betweenness_centrality]
  rw [h1, h2, he]
  rfl

/-- With endpoints off and no weight, an unsupported `result_dtype` is
rejected after the three earlier stages. -/
theorem bc_of_dtype_bad {G : Graph} {k : KParam} {normalized : Bool}
    {endpoints : Bool} {implementation : Impl}
    {seed : Option Nat} {result_dtype : Dtype} {t1 t2 : List Ev} {impl : String}
    {vs : Option (List Int)} {k2 : KParam}
    (h1 : _initialize_and_verify_implementation implementation k = (t1, Except.ok impl))
    (h2 : _initialize_vertices G k seed = (t2, Except.ok (vs, k2)))
    (he : endpoints = false)
    (hdt : result_dtype ∉ ([Dtype.float32, Dtype.float64] : List Dtype)) :
    betweenness_centrality G k normalized Option.none endpoints implementation seed result_dtype
      = (t1 ++ t2 ++ [Ev.endpointsCheck, Ev.weightCheck, Ev.dtypeCheck],
        Except.error Err.typeMismatch) := by
  simp only [betweenness_centrality]
  rw [h1, h2, he]
  simp [hdt]

/-- When every validation passes, `betweenness_centrality` reaches the backend
with the resolved implementation and the initialized source set. -/
theorem bc_of_ok {G : Graph} {k : KParam} {normalized : Bool}
    {endpoints : Bool} {implementation : Impl}
    {seed : Option Nat} {result_dtype : Dtype} {t1 t2 : List Ev} {impl : String}
    {vs : Option (List Int)} {k2 : KParam}
    (h1 : _initialize_and_verify_implementation implementation k = (t1, Except.ok impl))
    (h2 : _initialize_vertices G k seed = (t2, Except.ok (vs, k2)))
    (he : endpoints = false)
    (hdt : result_dtype ∈ ([Dtype.float32, Dtype.float64] : List Dtype)) :
    betweenness_centrality G k normalized Option.none endpoints implementation seed result_dtype
      = (t1 ++ t2 ++ [Ev.endpointsCheck, Ev.weightCheck, Ev.dtypeCheck, Ev.backendInvoke],
        Except.ok ⟨G, normalized, false, Option.none, k2, vs, impl, result_dtype⟩) := by
  simp only [betweenness_centrality]
  rw [h1, h2, he]
  simp [hdt]

/-- A failing source-set initialization aborts `edge_betweenness_centrality`. -/
theorem ebc_of_vert_err {G : Graph} {k : KParam} {normalized : Bool}
    {weight : Option Int} {seed : Option Nat} {result_dtype : Dtype}
    {t2 : List Ev} {e : Err}
    (h : _initialize_vertices G k seed = (t2, Except.error e)) :
    edge_betweenness_centrality G k normalized weight seed result_dtype
      = (t2, Except.error e) := by
  simp only [edge_betweenness_centrality]
  rw [h]

/-- With the source set in hand, a non-None weight is rejected by
`edge_betweenness_centrality`. -/
theorem ebc_of_weight {G : Graph} {k : KParam} {normalized : Bool}
    {w : Int} {seed : Option Nat} {result_dtype : Dtype}
    {t2 : List Ev} {vs : Option (List Int)} {k2 : KParam}
    (h : _initialize_vertices G k seed = (t2, Except.ok (vs, k2))) :
    edge_betweenness_centrality G k normalized (some w) seed result_dtype
      = (t2 ++ [Ev.weightCheck], Except.error Err.notSupported) := by
  simp only [edge_betweenness_centrality]
  rw [h]
  rfl

/-- With the source set in hand and no weight, an unsupported `result_dtype`
is rejected by `edge_betweenness_centrality`. -/
theorem ebc_of_dtype_bad {G : Graph} {k : KParam} {normalized : Bool}
    {seed : Option Nat} {result_dtype : Dtype}
    {t2 : List Ev} {vs : Option (List Int)} {k2 : KParam}
    (h : _initialize_vertices G k seed = (t2, Except.ok (vs, k2)))
    (hdt : result_dtype ∉ ([Dtype.float32, Dtype.float64] : List Dtype)) :
    edge_betweenness_centrality G k normalized Option.none seed result_dtype
      = (t2 ++ [Ev.weightCheck, Ev.dtypeCheck], Except.error Err.typeMismatch) := by
  simp only [edge_betweenness_centrality]
  rw [h]
  simp [hdt]

/-- When every validation passes, `edge_betweenness_centrality` reaches the
backend with the initialized source set. -/
theorem ebc_of_ok {G : Graph} {k : KParam} {normalized : Bool}
    {seed : Option Nat} {result_dtype : Dtype}
    {t2 : List Ev} {vs : Option (List Int)} {k2 : KParam}
    (h : _initialize_vertices G k seed = (t2, Except.ok (vs, k2)))
    (hdt : result_dtype ∈ ([Dtype.float32, Dtype.float64] : List Dtype)) :
    edge_betweenness_centrality G k normalized Option.none seed result_dtype
      = (t2 ++ [Ev.weightCheck, Ev.dtypeCheck, Ev.backendInvoke],
        Except.ok ⟨G, normalized, Option.none, k2, vs, result_dtype⟩) := by
  simp only [edge_betweenness_centrality]
  rw [h]
  simp [hdt]

/-- C2: for every call to `betweenness_centrality` with implementation
"gunrock" and any non-None `k`, the call fails with an InvalidArgument error
(`ValueError`), and its step trace contains only the implementation checks —
no sampling, no translation, and no backend invocation has started. -/
theorem gunrock_sampling_rejected (G : Graph) (k : KParam) (normalized : Bool)
    (weight : Option Int) (endpoints : Bool) (seed : Option Nat) (result_dtype : Dtype)
    (h : k ≠ KParam.none) :
    betweenness_centrality G k normalized weight endpoints (Impl.str "gunrock") seed result_dtype
      = ([Ev.implResolve, Ev.gunrockCheck], Except.error Err.invalidArgument) :=
  bc_of_impl_err (impl_gunrock_k h)

/-- C2 witness: gunrock with `k = 1` on a concrete graph. -/
theorem gunrock_sampling_rejected_witness :
    betweenness_centrality G2 (KParam.int 1) true Option.none false (Impl.str "gunrock")
        Option.none Dtype.float64
      = ([Ev.implResolve, Ev.gunrockCheck], Except.error Err.invalidArgument) :=
  gunrock_sampling_rejected G2 (KParam.int 1) true Option.none false Option.none Dtype.float64
    (by decide)

/-- C3: on a renumbered graph, a caller-supplied identifier list containing an
identifier absent from the renumbering map makes identifier translation fail
with a NotFound error. -/
theorem translation_missing_identifier_notFound (G : Graph) (ids : List Int) (v : Int)
    (hren : G.renumbered = true) (hv : v ∈ ids) (habs : v ∉ G.renumber_map) :
    _initialize_vertices_from_identifiers_list G ids = Except.error Err.notFound := by
  simp [_initialize_vertices_from_identifiers_list, hren, translate_all_missing hv habs]

/-- C3 witness: identifier 99 is absent from the renumbering map of `GR`. -/
theorem translation_missing_identifier_notFound_witness :
    _initialize_vertices_from_identifiers_list GR [20, 99] = Except.error Err.notFound :=
  translation_missing_identifier_notFound GR [20, 99] 99 rfl (by decide) (by decide)

/-- C4: when every caller-supplied identifier has a match in the renumbering
map, translation returns the element-wise first-match indices of the input
list — preserving its order and length — and `k` becomes the length of the list;
when the graph is not renumbered, the translation is the identity on the
list (and `k` is again the length of the list). -/
theorem translation_preserves_order_length (G : Graph) (ids : List Int) :
    (G.renumbered = false →
      _initialize_vertices_from_identifiers_list G ids
        = Except.ok (ids, Int.ofNat ids.length))
    ∧ (G.renumbered = true → (∀ v ∈ ids, v ∈ G.renumber_map) →
      _initialize_vertices_from_identifiers_list G ids
        = Except.ok (ids.map (fun v => Int.ofNat ((renumber_lookup G.renumber_map v).getD 0)),
            Int.ofNat ids.length)
      ∧ ∀ v ∈ ids, ∃ i, renumber_lookup G.renumber_map v = some i
          ∧ ∃ hi : i < G.renumber_map.length, G.renumber_map.get ⟨i, hi⟩ = v) := by
  constructor
  · intro hren
    simp [_initialize_vertices_from_identifiers_list, hren]
  · intro hren hall
    constructor
    · simp [_initialize_vertices_from_identifiers_list, hren, translate_all_ok hall,
        List.length_map]
    · intro v hv
      match he : renumber_lookup G.renumber_map v with
      | Option.none => exact absurd (renumber_lookup_eq_none.mp he) (by simpa using hall v hv)
      | some i => exact ⟨i, rfl, renumber_lookup_some he⟩

/-- C4 witness: `[30, 10]` on the renumbered graph `GR` translates to
`[3, 0]` with `k = 2`. -/
theorem translation_preserves_order_length_witness :
    _initialize_vertices_from_identifiers_list GR [30, 10] = Except.ok ([3, 0], 2) :=
  ((translation_preserves_order_length GR [30, 10]).2 rfl (by decide)).1

/-- C5: for `0 ≤ k ≤ N` the vertex sampler returns `k` distinct positional
indices in `[0, N)`; the sample is a function of `(N, k, seed)` alone, so the
same explicit seed yields the same sample; for `k` outside `[0, N]` it fails
with an InvalidArgument error (`ValueError`). -/
theorem sampler_contract (G : Graph) (k : Int) (seed : Option Nat) :
    ((0 ≤ k ∧ k ≤ (G.number_of_vertices : Int)) →
      ∃ l, _initialize_vertices_from_indices_sampling G k seed = Except.ok l
        ∧ l.length = k.toNat ∧ l.Nodup
        ∧ ∀ x ∈ l, 0 ≤ x ∧ x < (G.number_of_vertices : Int))
    ∧ ((k < 0 ∨ (G.number_of_vertices : Int) < k) →
      _initialize_vertices_from_indices_sampling G k seed = Except.error Err.invalidArgument)
    ∧ (∀ H : Graph, H.number_of_vertices = G.number_of_vertices →
      _initialize_vertices_from_indices_sampling H k seed
        = _initialize_vertices_from_indices_sampling G k seed) := by
  refine ⟨?_, ?_, ?_⟩
  · rintro ⟨h0, h1⟩
    refine ⟨(pick k.toNat (List.range G.number_of_vertices) (seedState seed)).map
      (Nat.cast : Nat → Int), ?_, ?_, ?_, ?_⟩
    · simp only [_initialize_vertices_from_indices_sampling, random_sample]
      rw [if_pos ⟨h0, h1⟩]
    · rw [List.length_map]
      exact pick_length _ _ _ (by rw [List.length_range]; omega)
    · exact List.Nodup.map Nat.cast_injective (pick_nodup _ _ _ (List.nodup_range _))
    · intro x hx
      rcases List.mem_map.mp hx with ⟨y, hy, rfl⟩
      have hyr : y ∈ List.range G.number_of_vertices := pick_mem _ _ _ _ hy
      have := List.mem_range.mp hyr
      omega
  · intro h
    simp only [_initialize_vertices_from_indices_sampling, random_sample]
    rw [if_neg (by rintro ⟨h0, h1⟩; rcases h with h2 | h2 <;> omega)]
  · intro H hH
    simp only [_initialize_vertices_from_indices_sampling, hH]

/-- C5 witness: `k = 5` exceeds the two vertices of `G2` and is rejected. -/
theorem sampler_contract_witness :
    _initialize_vertices_from_indices_sampling G2 5 Option.none
      = Except.error Err.invalidArgument :=
  (sampler_contract G2 5 Option.none).2.1 (Or.inr (by decide))

/-- C6: the implementation selector resolves `None` to "default", rejects any
string outside {"default", "gunrock"} with an InvalidArgument error
(`ValueError`), and any accepted name is one of those two. -/
theorem implementation_selector_contract (implementation : Impl) (k : KParam) :
    _initialize_and_verify_implementation Impl.none k
        = _initialize_and_verify_implementation (Impl.str "default") k
    ∧ (∀ s : String, s ∉ (["default", "gunrock"] : List String) →
        (_initialize_and_verify_implementation (Impl.str s) k).2
          = Except.error Err.invalidArgument)
    ∧ (∀ s : String, (_initialize_and_verify_implementation implementation k).2 = Except.ok s →
        s ∈ (["default", "gunrock"] : List String)) := by
  refine ⟨rfl, ?_, ?_⟩
  · intro s hs
    simp only [_initialize_and_verify_implementation]
    rw [if_neg hs]
  · intro s hok
    cases implementation with
    | none =>
      have hd : (_initialize_and_verify_implementation Impl.none k).2 = Except.ok "default" := by
        simp only [_initialize_and_verify_implementation]
        rw [if_pos (by simp), if_neg (by rintro ⟨hc, _⟩; exact absurd hc (by decide))]
      rw [hd] at hok
      injection hok with h
      rw [← h]
      decide
    | str t =>
      simp only [_initialize_and_verify_implementation] at hok
      by_cases hmem : t ∈ (["default", "gunrock"] : List String)
      · rw [if_pos hmem] at hok
        by_cases hg : t = "gunrock" ∧ k ≠ KParam.none
        · rw [if_pos hg] at hok
          exact absurd hok (by simp)
        · rw [if_neg hg] at hok
          have hok2 : Except.ok (ε := Err) t = Except.ok s := hok
          injection hok2 with h
          rw [← h]
          exact hmem
      · rw [if_neg hmem] at hok
        exact absurd hok (by simp)

/-- C6 witness: the name "bogus" is rejected. -/
theorem implementation_selector_contract_witness :
    (_initialize_and_verify_implementation (Impl.str "bogus") KParam.none).2
      = Except.error Err.invalidArgument :=
  (implementation_selector_contract (Impl.str "bogus") KParam.none).2.1 "bogus" (by decide)

/-- C7 counterexample: a call with a non-None weight but an unknown
implementation name fails with InvalidArgument, not NotSupported — so "every
call with a non-None weight fails with a NotSupported error" is false as
stated. -/
theorem weight_notSupported_cex :
    (betweenness_centrality G2 KParam.none true (some 1) false (Impl.str "bogus")
        Option.none Dtype.float64).2 = Except.error Err.invalidArgument
    ∧ Err.invalidArgument ≠ Err.notSupported :=
  ⟨rfl, by decide⟩

/-- C7 amended: every call with a non-None weight, and every
`betweenness_centrality` call with endpoints=True, fails before reaching the
backend — unconditionally, whatever the other arguments do; the error is
NotSupported whenever the earlier stages — implementation check and
source-set initialization — do not fail first with their own error
(endpoints=True combined with a non-None weight also yields NotSupported,
from the endpoints check). -/
theorem weight_endpoints_rejection (G : Graph) (k : KParam) (normalized : Bool)
    (endpoints : Bool) (implementation : Impl) (seed : Option Nat) (result_dtype : Dtype) :
    (∀ (w : Int) (t1 t2 : List Ev) (impl : String) (vs : Option (List Int)) (k2 : KParam),
      _initialize_and_verify_implementation implementation k = (t1, Except.ok impl) →
      _initialize_vertices G k seed = (t2, Except.ok (vs, k2)) →
      (betweenness_centrality G k normalized (some w) endpoints implementation seed
        result_dtype).2 = Except.error Err.notSupported)
    ∧ (∀ (t1 t2 : List Ev) (impl : String) (vs : Option (List Int)) (k2 : KParam)
        (weight : Option Int),
      _initialize_and_verify_implementation implementation k = (t1, Except.ok impl) →
      _initialize_vertices G k seed = (t2, Except.ok (vs, k2)) →
      endpoints = true →
      (betweenness_centrality G k normalized weight endpoints implementation seed
        result_dtype).2 = Except.error Err.notSupported)
    ∧ (∀ (w : Int) (t2 : List Ev) (vs : Option (List Int)) (k2 : KParam),
      _initialize_vertices G k seed = (t2, Except.ok (vs, k2)) →
      (edge_betweenness_centrality G k normalized (some w) seed result_dtype).2
        = Except.error Err.notSupported)
    ∧ (∀ (weight : Option Int) (c : BCCall),
      weight ≠ Option.none ∨ endpoints = true →
      (betweenness_centrality G k normalized weight endpoints implementation seed
        result_dtype).2 ≠ Except.ok c)
    ∧ (∀ (w : Int) (c : EBCCall),
      (edge_betweenness_centrality G k normalized (some w) seed result_dtype).2
        ≠ Except.ok c) := by
  refine ⟨?_, ?_, ?_, ?_, ?_⟩
  · intro w t1 t2 impl vs k2 h1 h2
    by_cases he : endpoints = true
    · rw [bc_of_endpoints h1 h2 he]
    · rw [bc_of_weight h1 h2 (by revert he; cases endpoints <;> simp)]
  · intro t1 t2 impl vs k2 weight h1 h2 he
    rw [bc_of_endpoints h1 h2 he]
  · intro w t2 vs k2 h2
    rw [ebc_of_weight h2]
  · intro weight c hwe
    rcases impl_check_cases implementation k with hA | ⟨r1, hA⟩
    · rw [bc_of_impl_err hA]; simp
    · cases r1 with
      | error e => rw [bc_of_impl_err hA]; simp
      | ok impl =>
        rcases hB : _initialize_vertices G k seed with ⟨t2, r2⟩
        cases r2 with
        | error e => rw [bc_of_vert_err hA hB]; simp
        | ok vk =>
          obtain ⟨vs, k2⟩ := vk
          by_cases he : endpoints = true
          · rw [bc_of_endpoints hA hB he]; simp
          · have hef : endpoints = false := by revert he; cases endpoints <;> simp
            cases weight with
            | some w => rw [bc_of_weight hA hB hef]; simp
            | none =>
              rcases hwe with hw | he2
              · exact absurd rfl hw
              · exact absurd he2 he
  · intro w c
    rcases hB : _initialize_vertices G k seed with ⟨t2, r2⟩
    cases r2 with
    | error e => rw [ebc_of_vert_err hB]; simp
    | ok vk =>
      obtain ⟨vs, k2⟩ := vk
      rw [ebc_of_weight hB]; simp

/-- C7 witness: weight rejection with otherwise valid arguments. -/
theorem weight_endpoints_rejection_witness :
    (betweenness_centrality G2 KParam.none true (some 1) false Impl.none Option.none
        Dtype.float64).2 = Except.error Err.notSupported :=
  (weight_endpoints_rejection G2 KParam.none true false Impl.none Option.none Dtype.float64).1
    1 [Ev.implResolve, Ev.gunrockCheck] [] "default" Option.none KParam.none rfl rfl

/-- C8 counterexample: a call with an invalid result precision but also a
non-None weight fails with NotSupported, not TypeMismatch — so "every call
with an invalid result_dtype fails with a TypeMismatch error" is false as
stated. -/
theorem dtype_typeMismatch_cex :
    (betweenness_centrality G2 KParam.none true (some 1) false Impl.none Option.none
        (Dtype.other "int32")).2 = Except.error Err.notSupported
    ∧ Err.notSupported ≠ Err.typeMismatch :=
  ⟨rfl, by decide⟩

/-- C8 amended: an invalid result precision always makes the call fail before
the backend; the error is TypeMismatch whenever the earlier stages
(implementation check, source-set initialization, endpoints and weight
checks) pass. -/
theorem dtype_rejection (G : Graph) (k : KParam) (normalized : Bool)
    (implementation : Impl) (seed : Option Nat) (result_dtype : Dtype)
    (hdt : result_dtype ∉ ([Dtype.float32, Dtype.float64] : List Dtype)) :
    (∀ (t1 t2 : List Ev) (impl : String) (vs : Option (List Int)) (k2 : KParam),
      _initialize_and_verify_implementation implementation k = (t1, Except.ok impl) →
      _initialize_vertices G k seed = (t2, Except.ok (vs, k2)) →
      (betweenness_centrality G k normalized Option.none false implementation seed
        result_dtype).2 = Except.error Err.typeMismatch)
    ∧ (∀ (t2 : List Ev) (vs : Option (List Int)) (k2 : KParam),
      _initialize_vertices G k seed = (t2, Except.ok (vs, k2)) →
      (edge_betweenness_centrality G k normalized Option.none seed result_dtype).2
        = Except.error Err.typeMismatch)
    ∧ (∀ (weight : Option Int) (endpoints : Bool) (c : BCCall),
      (betweenness_centrality G k normalized weight endpoints implementation seed
        result_dtype).2 ≠ Except.ok c)
    ∧ (∀ (weight : Option Int) (c : EBCCall),
      (edge_betweenness_centrality G k normalized weight seed result_dtype).2
        ≠ Except.ok c) := by
  refine ⟨?_, ?_, ?_, ?_⟩
  · intro t1 t2 impl vs k2 h1 h2
    rw [bc_of_dtype_bad h1 h2 rfl hdt]
  · intro t2 vs k2 h2
    rw [ebc_of_dtype_bad h2 hdt]
  · intro weight endpoints c
    rcases impl_check_cases implementation k with hA | ⟨r1, hA⟩
    · rw [bc_of_impl_err hA]; simp
    · cases r1 with
      | error e => rw [bc_of_impl_err hA]; simp
      | ok impl =>
        rcases hB : _initialize_vertices G k seed with ⟨t2, r2⟩
        cases r2 with
        | error e => rw [bc_of_vert_err hA hB]; simp
        | ok vk =>
          obtain ⟨vs, k2⟩ := vk
          by_cases he : endpoints = true
          · rw [bc_of_endpoints hA hB he]; simp
          · have hef : endpoints = false := by revert he; cases endpoints <;> simp
            cases weight with
            | some w => rw [bc_of_weight hA hB hef]; simp
            | none => rw [bc_of_dtype_bad hA hB hef hdt]; simp
  · intro weight c
    rcases hB : _initialize_vertices G k seed with ⟨t2, r2⟩
    cases r2 with
    | error e => rw [ebc_of_vert_err hB]; simp
    | ok vk =>
      obtain ⟨vs, k2⟩ := vk
      cases weight with
      | some w => rw [ebc_of_weight hB]; simp
      | none => rw [ebc_of_dtype_bad hB hdt]; simp

/-- C8 witness: dtype rejection with otherwise valid arguments. -/
theorem dtype_rejection_witness :
    (betweenness_centrality G2 KParam.none true Option.none false Impl.none Option.none
        (Dtype.other "int32")).2 = Except.error Err.typeMismatch :=
  (dtype_rejection G2 KParam.none true Impl.none Option.none (Dtype.other "int32")
      (by decide)).1
    [Ev.implResolve, Ev.gunrockCheck] [] "default" Option.none KParam.none rfl rfl

/-- C9: when `k` is None or a list, the seed parameter has no effect: two
calls identical except for the seed produce the same step trace and the same
source set and backend argument tuple — hence the same result for any
deterministic backend — for both entry points. -/
theorem seed_noninterference (G : Graph) (k : KParam) (normalized : Bool)
    (weight : Option Int) (endpoints : Bool) (implementation : Impl)
    (s1 s2 : Option Nat) (result_dtype : Dtype)
    (h : k = KParam.none ∨ ∃ l, k = KParam.list l) :
    betweenness_centrality G k normalized weight endpoints implementation s1 result_dtype
      = betweenness_centrality G k normalized weight endpoints implementation s2 result_dtype
    ∧ edge_betweenness_centrality G k normalized weight s1 result_dtype
      = edge_betweenness_centrality G k normalized weight s2 result_dtype := by
  have hiv : _initialize_vertices G k s1 = _initialize_vertices G k s2 := by
    rcases h with rfl | ⟨l, rfl⟩ <;> rfl
  exact ⟨by simp only [betweenness_centrality, hiv],
    by simp only [edge_betweenness_centrality, hiv]⟩

/-- C9 witness: seeds 1 and 2 give identical calls when `k` is a list. -/
theorem seed_noninterference_witness :
    betweenness_centrality G2 (KParam.list []) true Option.none false Impl.none (some 1)
        Dtype.float64
      = betweenness_centrality G2 (KParam.list []) true Option.none false Impl.none (some 2)
        Dtype.float64 :=
  (seed_noninterference G2 (KParam.list []) true Option.none false Impl.none (some 1) (some 2)
    Dtype.float64 (Or.inr ⟨[], rfl⟩)).1

/-- C10: a `k` that is neither None, an int, nor a list (e.g. a string) is not
rejected by the wrapper: source-set initialization performs no work, raises no
error, and returns `vertices = None` with `k` unchanged; with every other
argument acceptable, both entry points forward that `k` to the backend
untouched. -/
theorem k_other_passthrough (G : Graph) (s : String) (seed : Option Nat)
    (normalized : Bool) (result_dtype : Dtype)
    (hdt : result_dtype ∈ ([Dtype.float32, Dtype.float64] : List Dtype)) :
    _initialize_vertices G (KParam.other s) seed
      = ([], Except.ok (Option.none, KParam.other s))
    ∧ betweenness_centrality G (KParam.other s) normalized Option.none false Impl.none
        seed result_dtype
      = ([Ev.implResolve, Ev.gunrockCheck, Ev.endpointsCheck, Ev.weightCheck, Ev.dtypeCheck,
          Ev.backendInvoke],
        Except.ok ⟨G, normalized, false, Option.none, KParam.other s, Option.none, "default",
          result_dtype⟩)
    ∧ edge_betweenness_centrality G (KParam.other s) normalized Option.none seed result_dtype
      = ([Ev.weightCheck, Ev.dtypeCheck, Ev.backendInvoke],
        Except.ok ⟨G, normalized, Option.none, KParam.other s, Option.none, result_dtype⟩) := by
  have h1 : _initialize_and_verify_implementation Impl.none (KParam.other s)
      = ([Ev.implResolve, Ev.gunrockCheck], Except.ok "default") := rfl
  have h2 : _initialize_vertices G (KParam.other s) seed
      = ([], Except.ok (Option.none, KParam.other s)) := rfl
  refine ⟨rfl, ?_, ?_⟩
  · exact bc_of_ok h1 h2 rfl hdt
  · exact ebc_of_ok h2 hdt

/-- C10 witness: the string "foo" as `k` flows through untouched. -/
theorem k_other_passthrough_witness :
    _initialize_vertices G2 (KParam.other "foo") Option.none
      = ([], Except.ok (Option.none, KParam.other "foo")) :=
  (k_other_passthrough G2 "foo" Option.none true Dtype.float64 (by decide)).1

/-- C1 counterexample: with `k = 1` (sampling requested) and `endpoints=True`,
the call performs the sampling work and only afterwards raises the endpoints
rejection, and the gunrock+sampling check runs second rather than fifth — so
the claimed order "(1) implementation, (2) endpoints, (3) weight, (4)
precision, (5) gunrock+sampling, all before any sampling or translation work"
is false on the code. -/
theorem bc_claimed_validation_order_cex :
    betweenness_centrality G2 (KParam.int 1) true Option.none true Impl.none (some 0)
        Dtype.float64
      = ([Ev.implResolve, Ev.gunrockCheck, Ev.samplingWork, Ev.endpointsCheck],
        Except.error Err.notSupported)
    ∧ Ev.samplingWork ∈ (betweenness_centrality G2 (KParam.int 1) true Option.none true
        Impl.none (some 0) Dtype.float64).1 :=
  ⟨rfl, by decide⟩

/-- C1 amended: the actual order is (1) implementation-name resolution
(unknown names rejected), (2) gunrock+sampling rejection, (3) sampling or
translation work as dictated by `k`, (4) endpoints rejection, (5) weight
rejection, (6) result-precision rejection, (7) backend invocation.  Every
step trace of every call is a prefix of this sequence (the first failing step cuts it
short), a call that reaches the backend performs exactly this sequence, and
only the two implementation-stage rejections are fail-fast with respect to
sampling/translation: when the implementation check fails, no sampling,
translation, or backend step has occurred. -/
theorem bc_validation_order (G : Graph) (k : KParam) (normalized : Bool)
    (weight : Option Int) (endpoints : Bool) (implementation : Impl)
    (seed : Option Nat) (result_dtype : Dtype) :
    (betweenness_centrality G k normalized weight endpoints implementation seed
        result_dtype).1
      <+: [Ev.implResolve, Ev.gunrockCheck] ++ workEvs k
          ++ [Ev.endpointsCheck, Ev.weightCheck, Ev.dtypeCheck, Ev.backendInvoke]
    ∧ (∀ c, (betweenness_centrality G k normalized weight endpoints implementation seed
          result_dtype).2 = Except.ok c →
        (betweenness_centrality G k normalized weight endpoints implementation seed
          result_dtype).1
          = [Ev.implResolve, Ev.gunrockCheck] ++ workEvs k
            ++ [Ev.endpointsCheck, Ev.weightCheck, Ev.dtypeCheck, Ev.backendInvoke])
    ∧ ((_initialize_and_verify_implementation implementation k).2
          = Except.error Err.invalidArgument →
        Ev.samplingWork ∉ (betweenness_centrality G k normalized weight endpoints
          implementation seed result_dtype).1
        ∧ Ev.translationWork ∉ (betweenness_centrality G k normalized weight endpoints
          implementation seed result_dtype).1
        ∧ Ev.backendInvoke ∉ (betweenness_centrality G k normalized weight endpoints
          implementation seed result_dtype).1) := by
  rcases impl_check_cases implementation k with hA | ⟨r1, hA⟩
  · refine ⟨?_, ?_, ?_⟩
    · rw [bc_of_impl_err hA]
      exact ⟨[Ev.gunrockCheck] ++ workEvs k
        ++ [Ev.endpointsCheck, Ev.weightCheck, Ev.dtypeCheck, Ev.backendInvoke], by simp⟩
    · intro c hc
      rw [bc_of_impl_err hA] at hc
      exact absurd hc (by simp)
    · intro _
      rw [bc_of_impl_err hA]
      exact ⟨by decide, by decide, by decide⟩
  · cases r1 with
    | error e =>
      refine ⟨?_, ?_, ?_⟩
      · rw [bc_of_impl_err hA]
        exact ⟨workEvs k ++ [Ev.endpointsCheck, Ev.weightCheck, Ev.dtypeCheck, Ev.backendInvoke],
          by simp⟩
      · intro c hc
        rw [bc_of_impl_err hA] at hc
        exact absurd hc (by simp)
      · intro _
        rw [bc_of_impl_err hA]
        exact ⟨by simp, by simp, by simp⟩
    | ok impl =>
      rcases hB : _initialize_vertices G k seed with ⟨t2, r2⟩
      have ht2 : t2 = workEvs k := by
        have h := init_vertices_trace G k seed
        rw [hB] at h
        exact h
      subst ht2
      cases r2 with
      | error e =>
        refine ⟨?_, ?_, ?_⟩
        · rw [bc_of_vert_err hA hB]
          exact ⟨[Ev.endpointsCheck, Ev.weightCheck, Ev.dtypeCheck, Ev.backendInvoke], by simp⟩
        · intro c hc
          rw [bc_of_vert_err hA hB] at hc
          exact absurd hc (by simp)
        · intro himpl
          rw [hA] at himpl
          exact absurd himpl (by simp)
      | ok vk =>
        obtain ⟨vs, k2⟩ := vk
        by_cases he : endpoints = true
        · refine ⟨?_, ?_, ?_⟩
          · rw [bc_of_endpoints hA hB he]
            exact ⟨[Ev.weightCheck, Ev.dtypeCheck, Ev.backendInvoke], by simp⟩
          · intro c hc
            rw [bc_of_endpoints hA hB he] at hc
            exact absurd hc (by simp)
          · intro himpl
            rw [hA] at himpl
            exact absurd himpl (by simp)
        · have hef : endpoints = false := by revert he; cases endpoints <;> simp
          cases weight with
          | some w =>
            refine ⟨?_, ?_, ?_⟩
            · rw [bc_of_weight hA hB hef]
              exact ⟨[Ev.dtypeCheck, Ev.backendInvoke], by simp⟩
            · intro c hc
              rw [bc_of_weight hA hB hef] at hc
              exact absurd hc (by simp)
            · intro himpl
              rw [hA] at himpl
              exact absurd himpl (by simp)
          | none =>
            by_cases hdt : result_dtype ∈ ([Dtype.float32, Dtype.float64] : List Dtype)
            · refine ⟨?_, ?_, ?_⟩
              · rw [bc_of_ok hA hB hef hdt]
              · intro c hc
                rw [bc_of_ok hA hB hef hdt]
              · intro himpl
                rw [hA] at himpl
                exact absurd himpl (by simp)
            · refine ⟨?_, ?_, ?_⟩
              · rw [bc_of_dtype_bad hA hB hef hdt]
                exact ⟨[Ev.backendInvoke], by simp⟩
              · intro c hc
                rw [bc_of_dtype_bad hA hB hef hdt] at hc
                exact absurd hc (by simp)
              · intro himpl
                rw [hA] at himpl
                exact absurd himpl (by simp)

/-- C1 witness: a fully valid call performs the complete step sequence and
reaches the backend. -/
theorem bc_validation_order_witness :
    (betweenness_centrality G2 KParam.none true Option.none false Impl.none Option.none
        Dtype.float64).1
      = [Ev.implResolve, Ev.gunrockCheck, Ev.endpointsCheck, Ev.weightCheck, Ev.dtypeCheck,
          Ev.backendInvoke] :=
  (bc_validation_order G2 KParam.none true Option.none false Impl.none Option.none
      Dtype.float64).2.1
    ⟨G2, true, false, Option.none, KParam.none, Option.none, "default", Dtype.float64⟩ rfl
